import Mathlib

/-!
# Student Result Management backend: shallow embedding and verification

This file embeds the core logic of `src/main.py` and `src/schemas.py`
(grade calculation, result recording, result listing, transcript
aggregation) as pure Lean functions over an explicit document-store
state, and proves the specified properties about them.

Conventions of the embedding:
* Numeric marks, credits and grade points (Python floats) are modelled
  as rationals `ℚ`.
* A Mongo `ObjectId` is modelled as its canonical 24-character lowercase
  hex string; `bson.ObjectId(s)` accepts any 24-character hex string and
  normalises it (comparison is on the underlying bytes, i.e. on the
  lowercased hex form), and raises for anything else.
* `HTTPException(status, detail)`, pydantic validation failures and
  Mongo aggregation failures are the error cases of an `Except Err`
  computation.
* Every endpoint threads the document-store state explicitly:
  an endpoint is a function `Store → args → result × Store`.
-/

namespace StudentResults

/-- Errors raised by the embedded endpoints: `HTTPException(status, detail)`
from `main.py`, a pydantic field-validation error raised while
constructing a schema model, or a MongoDB server error raised during an
aggregation pipeline (e.g. `$toObjectId` on a malformed string). -/
inductive Err where
  | http (status : Nat) (detail : String)
  | pydantic (field : String)
  | mongo (detail : String)
deriving DecidableEq, Repr

/-- The spec's ValidationError kind: a client-side rejection — either the
400 "Invalid id format" of `to_object_id` or a pydantic field-constraint
violation. -/
def Err.isValidationError : Err → Bool
  | .http 400 _ => true
  | .pydantic _ => true
  | _ => false

/-- The spec's NotFoundError kind: an HTTP 404. -/
def Err.isNotFoundError : Err → Bool
  | .http 404 _ => true
  | _ => false

/-- Hex character, either case (the characters `bson.ObjectId` accepts). -/
def isHexChar (c : Char) : Bool :=
  c.isDigit || (Char.ofNat 97 ≤ c && c ≤ Char.ofNat 102)
    || (Char.ofNat 65 ≤ c && c ≤ Char.ofNat 70)

/-- A string convertible to a `bson.ObjectId`: exactly 24 hex characters. -/
def isValidObjectId (s : String) : Bool :=
  s.length == 24 && s.toList.all isHexChar

/-- Canonical form of an ObjectId built from a valid hex string:
ObjectId comparison is on the underlying 12 bytes, i.e. on the
lowercased hex rendering. -/
def oidCanon (s : String) : String := String.mk (s.toList.map Char.toLower)

/-- `to_object_id` from `main.py`: convert a string to an ObjectId,
raising `HTTPException(400, "Invalid id format")` when `bson.ObjectId`
rejects it. -/
def to_object_id (s : String) : Except Err String :=
  if isValidObjectId s then .ok (oidCanon s) else .error (.http 400 "Invalid id format")

/-- `Student` schema from `schemas.py`. -/
structure Student where
  first_name : String
  last_name : String
  roll_number : String
  class_name : String
  year : Int
  email : Option String
deriving DecidableEq, Repr

/-- `Course` schema from `schemas.py`: `credits` is a required float. -/
structure Course where
  code : String
  title : String
  credits : ℚ
deriving DecidableEq, Repr

/-- `Result` schema from `schemas.py`: `grade` and `grade_point` are
optional fields. -/
structure ResultDoc where
  student_id : String
  course_id : String
  marks : ℚ
  grade : Option String
  grade_point : Option ℚ
deriving DecidableEq, Repr

/-- The external document store: each collection is a list of
(canonical ObjectId, document) pairs in insertion order, plus the state
of the store's id generator. -/
structure Store where
  students : List (String × Student)
  courses : List (String × Course)
  results : List (String × ResultDoc)
  nextOid : Nat
deriving DecidableEq, Repr

/-- Modelled from the spec: the store assigns opaque unique identifiers
on creation; we render the `n`-th generated id as the 24-character
lowercase hex encoding of `n`. -/
def genOid (n : Nat) : String :=
  let digits := Nat.toDigits 16 n
  String.mk (List.replicate (24 - digits.length) (Char.ofNat 48) ++ digits)

/-- Modelled from the spec: `insert("result", document) -> id` of the
external document store (`create_document` in the absent `database`
module) — appends the document under a newly generated identifier. -/
def create_document_result (store : Store) (doc : ResultDoc) : String × Store :=
  let oid := genOid store.nextOid
  (oid, { store with results := store.results ++ [(oid, doc)],
                     nextOid := store.nextOid + 1 })

/-- Modelled from the spec: `findMany("result", filter)` of the external
document store (`get_documents` in the absent `database` module) — an
equality match on `student_id` when the filter sets it, otherwise every
document. -/
def get_documents_result (store : Store) (filt : Option String) :
    List (String × ResultDoc) :=
  match filt with
  | none => store.results
  | some sid => store.results.filter (fun p => p.2.student_id == sid)

/-- `db["student"].find_one({"_id": oid})` — first student with the given id. -/
def find_student (store : Store) (oid : String) : Option Student :=
  (store.students.find? (fun p => p.1 == oid)).map (fun p => p.2)

/-- `db[c].count_documents({"_id": oid})` over a collection list. -/
def count_by_id {α : Type} (l : List (String × α)) (oid : String) : Nat :=
  (l.filter (fun p => p.1 == oid)).length

/-- `calculate_grade` from `main.py`. -/
def calculate_grade (marks : ℚ) : String × ℚ :=
  if marks ≥ 90 then ("A+", 10.0)
  else if marks ≥ 80 then ("A", 9.0)
  else if marks ≥ 70 then ("B", 8.0)
  else if marks ≥ 60 then ("C", 7.0)
  else if marks ≥ 50 then ("D", 6.0)
  else if marks ≥ 40 then ("E", 5.0)
  else ("F", 0.0)

/-- Python `round` to an integer: round half to even (banker's rounding). -/
def roundHalfEven (x : ℚ) : ℤ :=
  if x - ⌊x⌋ < 1/2 then ⌊x⌋
  else if x - ⌊x⌋ > 1/2 then ⌊x⌋ + 1
  else if ⌊x⌋ % 2 = 0 then ⌊x⌋ else ⌊x⌋ + 1

/-- Python `round(x, 2)`: round to 2 decimal places, half to even. -/
def round2 (x : ℚ) : ℚ := (roundHalfEven (x * 100) : ℚ) / 100

/-- `ResultCreate` request model from `main.py`: no constraints on any
field. -/
structure ResultCreate where
  student_id : String
  course_id : String
  marks : ℚ
deriving DecidableEq, Repr

/-- Constructing the `Result` pydantic payload in `create_result`:
pydantic enforces `0 ≤ marks ≤ 100` (the only constrained field) and
raises a ValidationError otherwise; `grade` and `grade_point` are
unconstrained optional fields. -/
def mkResultPayload (student_id course_id : String) (marks : ℚ)
    (grade : String) (grade_point : ℚ) : Except Err ResultDoc :=
  if 0 ≤ marks ∧ marks ≤ 100 then
    .ok ⟨student_id, course_id, marks, some grade, some grade_point⟩
  else .error (.pydantic "marks")

/-- `create_result` from `main.py`: validate that the referenced student
and course exist (in that order, converting each id string as it is
reached), compute the grade, build the `Result` payload (where pydantic
checks the marks range), and insert it. -/
def create_result (store : Store) (req : ResultCreate) :
    Except Err (String × String × ℚ) × Store :=
  match to_object_id req.student_id with
  | .error e => (.error e, store)
  | .ok soid =>
    if count_by_id store.students soid == 0 then
      (.error (.http 404 "Student not found"), store)
    else
      match to_object_id req.course_id with
      | .error e => (.error e, store)
      | .ok coid =>
        if count_by_id store.courses coid == 0 then
          (.error (.http 404 "Course not found"), store)
        else
          match mkResultPayload req.student_id req.course_id req.marks
              (calculate_grade req.marks).1 (calculate_grade req.marks).2 with
          | .error e => (.error e, store)
          | .ok payload =>
            (.ok ((create_document_result store payload).1,
                  (calculate_grade req.marks).1, (calculate_grade req.marks).2),
             (create_document_result store payload).2)

/-- Python truthiness of an `Optional[str]`: `None` and `""` are falsy. -/
def truthyOptStr : Option String → Bool
  | none => false
  | some s => !s.isEmpty

/-- `list_results` from `main.py`: the `student_id` filter is added to
the query only when the argument is truthy. -/
def list_results (store : Store) (student_id : Option String) :
    List (String × ResultDoc) × Store :=
  let filt : Option String := if truthyOptStr student_id then student_id else none
  (get_documents_result store filt, store)

/-- The `$match` stage of the transcript pipeline: all result documents
whose `student_id` field equals the raw `student_id` path parameter. -/
def matchedResults (store : Store) (student_id : String) :
    List (String × ResultDoc) :=
  store.results.filter (fun p => p.2.student_id == student_id)

/-- The `$addFields`/`$toObjectId` stage applied to one document:
`$toObjectId` fails the whole aggregation when the string is not a valid
ObjectId. -/
def toObjectIdAgg (s : String) : Except Err String :=
  if isValidObjectId s then .ok (oidCanon s)
  else .error (.mongo "Failed to parse objectId")

/-- The `$addFields` stage over the matched documents: convert each
document's `course_id` with `$toObjectId`; any failure fails the whole
aggregation. -/
def convertCourseIds :
    List (String × ResultDoc) → Except Err (List (String × ResultDoc × String))
  | [] => .ok []
  | p :: rest =>
    match toObjectIdAgg p.2.course_id with
    | .error e => .error e
    | .ok coid =>
      match convertCourseIds rest with
      | .error e => .error e
      | .ok tail => .ok ((p.1, p.2, coid) :: tail)

/-- The aggregation pipeline of `get_transcript`: `$match` on
`student_id`, `$addFields` converting `course_id` with `$toObjectId`,
`$lookup` of the course by `_id`, and `$unwind` (which drops documents
whose lookup array is empty). -/
def aggregateResults (store : Store) (student_id : String) :
    Except Err (List (String × ResultDoc × Course)) :=
  match convertCourseIds (matchedResults store student_id) with
  | .error e => .error e
  | .ok withOid =>
    .ok (withOid.filterMap (fun t =>
      (store.courses.find? (fun c => c.1 == t.2.2)).map (fun c => (t.1, t.2.1, c.2))))

/-- A line item of the transcript response of `get_transcript`. -/
structure TranscriptItem where
  course_code : String
  course_title : String
  credits : ℚ
  marks : ℚ
  grade : Option String
  grade_point : ℚ
deriving DecidableEq, Repr

/-- The student summary block of the transcript response. -/
structure StudentSummary where
  id : String
  first_name : String
  last_name : String
  roll_number : String
  class_name : String
  year : Int
deriving DecidableEq, Repr

/-- The transcript response of `get_transcript`. -/
structure Transcript where
  student : StudentSummary
  gpa : ℚ
  results : List TranscriptItem
deriving DecidableEq, Repr

/-- The accumulation loop body of `get_transcript`: running
(total_points, total_credits, transcript_items). -/
def transcriptStep (acc : ℚ × ℚ × List TranscriptItem)
    (r : String × ResultDoc × Course) : ℚ × ℚ × List TranscriptItem :=
  let credits := r.2.2.credits
  let gp := (r.2.1.grade_point).getD 0
  (acc.1 + gp * credits, acc.2.1 + credits,
   acc.2.2 ++ [⟨r.2.2.code, r.2.2.title, credits, r.2.1.marks, r.2.1.grade, gp⟩])

/-- `get_transcript` from `main.py` (error/value part): resolve the
student id, fetch the student (404 if absent), run the aggregation
pipeline, accumulate points/credits/items, and compute the GPA. -/
def get_transcript_core (store : Store) (student_id : String) :
    Except Err Transcript :=
  match to_object_id student_id with
  | .error e => .error e
  | .ok oid =>
    match find_student store oid with
    | none => .error (.http 404 "Student not found")
    | some student =>
      match aggregateResults store student_id with
      | .error e => .error e
      | .ok records =>
        let acc := records.foldl transcriptStep (0, 0, [])
        let gpa := if acc.2.1 > 0 then round2 (acc.1 / acc.2.1) else 0
        .ok ⟨⟨oid, student.first_name, student.last_name, student.roll_number,
              student.class_name, student.year⟩, gpa, acc.2.2⟩

/-- `get_transcript` as a state-threading endpoint: it only reads the
store. -/
def get_transcript (store : Store) (student_id : String) :
    Except Err Transcript × Store :=
  (get_transcript_core store student_id, store)

/-! ## Specification-style descriptions of the transcript computation

The following definitions restate the spec's description of the
Transcript Aggregator (sums over the joined line items) independently of
the accumulation loop of the source; the refinement lemmas below relate
the two. -/

/-- The joined (result, course) records of a student, as the spec
describes them: each matched result paired with its course, results
whose course is absent dropped (inner join). -/
def joinedRecords (store : Store) (student_id : String) :
    List (String × ResultDoc × Course) :=
  ((matchedResults store student_id).map
      (fun p => (p.1, p.2, oidCanon p.2.course_id))).filterMap
    (fun t => (store.courses.find? (fun c => c.1 == t.2.2)).map
      (fun c => (t.1, t.2.1, c.2)))

/-- Spec: `Σ grade_point × credits` over the joined records (grade_point
read from the stored document). -/
def total_points_spec (records : List (String × ResultDoc × Course)) : ℚ :=
  (records.map (fun r => (r.2.1.grade_point).getD 0 * r.2.2.credits)).sum

/-- Spec: `Σ credits` over the joined records. -/
def total_credits_spec (records : List (String × ResultDoc × Course)) : ℚ :=
  (records.map (fun r => r.2.2.credits)).sum

/-- Spec: the transcript line items, one per joined record, built from
the stored document fields. -/
def items_spec (records : List (String × ResultDoc × Course)) :
    List TranscriptItem :=
  records.map (fun r =>
    ⟨r.2.2.code, r.2.2.title, r.2.2.credits, r.2.1.marks, r.2.1.grade,
     (r.2.1.grade_point).getD 0⟩)

/-- Spec: GPA, the rounded credit-weighted mean when total credits is
positive, else 0. -/
def gpa_spec (records : List (String × ResultDoc × Course)) : ℚ :=
  if 0 < total_credits_spec records then
    round2 (total_points_spec records / total_credits_spec records)
  else 0

/-- The GPA of a successful transcript response, if any. -/
def gpaOf : Except Err Transcript × Store → Option ℚ
  | (.ok t, _) => some t.gpa
  | (.error _, _) => none

/-! ## Concrete fixtures used by witnesses and counterexamples -/

/-- A well-formed ObjectId string (24 hex characters) for a student. -/
def sidA : String := "aaaaaaaaaaaaaaaaaaaaaaaa"

/-- A well-formed ObjectId string for a course. -/
def cidB : String := "bbbbbbbbbbbbbbbbbbbbbbbb"

/-- A second well-formed course id. -/
def cidC : String := "cccccccccccccccccccccccc"

/-- A well-formed ObjectId string matching no stored document. -/
def sidD : String := "dddddddddddddddddddddddd"

/-- A sample student document. -/
def annStudent : Student := ⟨"Ann", "Lee", "R1", "BSc-1", 2024, none⟩

/-- A 3-credit course. -/
def mathCourse : Course := ⟨"MATH101", "Calculus", 3⟩

/-- A 2-credit course. -/
def physCourse : Course := ⟨"PHY101", "Physics", 2⟩

/-- The store with no documents. -/
def emptyStore : Store := ⟨[], [], [], 0⟩

/-- A store holding one student and two courses, no results. -/
def baseStore : Store :=
  ⟨[(sidA, annStudent)], [(cidB, mathCourse), (cidC, physCourse)], [], 3⟩

/-- `baseStore` after recording the two results of the spec's GPA
round-trip scenario through the Result Recorder. -/
def scenarioStore : Store :=
  (create_result (create_result baseStore ⟨sidA, cidB, 95⟩).2 ⟨sidA, cidC, 65⟩).2

/-- A store whose first result references the course `cidC`, which is
not in the course collection; the second result joins normally. -/
def missStore : Store :=
  ⟨[(sidA, annStudent)], [(cidB, mathCourse)],
   [(genOid 7, ⟨sidA, cidC, 70, some "B", some 8⟩),
    (genOid 8, ⟨sidA, cidB, 95, some "A+", some 10⟩)], 9⟩

/-- A store holding a result whose stored grade_point 3 disagrees with
the grade the calculator would assign to its marks 95. -/
def storedGpStore : Store :=
  ⟨[(sidA, annStudent)], [(cidB, mathCourse)],
   [(genOid 5, ⟨sidA, cidB, 95, some "A+", some 3⟩)], 6⟩


/-! ## Refinement lemmas -/

/-- The accumulation loop computes the spec sums and the spec items. -/
lemma foldl_transcriptStep (records : List (String × ResultDoc × Course))
    (a b : ℚ) (l : List TranscriptItem) :
    records.foldl transcriptStep (a, b, l) =
      (a + total_points_spec records, b + total_credits_spec records,
       l ++ items_spec records) := by
  induction records generalizing a b l with
  | nil => simp [total_points_spec, total_credits_spec, items_spec]
  | cons r rest ih =>
      simp only [List.foldl_cons, transcriptStep, ih, total_points_spec,
        total_credits_spec, items_spec, List.map_cons, List.sum_cons]
      refine Prod.ext (by ring) (Prod.ext (by ring) ?_)
      simp

/-- `$addFields`/`$toObjectId` succeeds on a list of documents with
well-formed course ids and produces the canonical ids. -/
lemma convertCourseIds_ok (l : List (String × ResultDoc))
    (h : ∀ p ∈ l, isValidObjectId p.2.course_id = true) :
    convertCourseIds l = .ok (l.map (fun p => (p.1, p.2, oidCanon p.2.course_id))) := by
  induction l with
  | nil => rfl
  | cons p rest ih =>
      have hp : isValidObjectId p.2.course_id = true := h p (List.mem_cons_self p rest)
      have hrest : convertCourseIds rest =
          .ok (rest.map (fun p => (p.1, p.2, oidCanon p.2.course_id))) :=
        ih (fun q hq => h q (List.mem_cons_of_mem p hq))
      simp [convertCourseIds, toObjectIdAgg, hp, hrest]

/-- Any failure of the `$addFields` stage is the `$toObjectId` parse
error. -/
lemma convertCourseIds_error (l : List (String × ResultDoc)) (e : Err)
    (h : convertCourseIds l = .error e) :
    e = .mongo "Failed to parse objectId" := by
  induction l with
  | nil => simp [convertCourseIds] at h
  | cons p rest ih =>
      by_cases hp : isValidObjectId p.2.course_id = true
      · rw [convertCourseIds, toObjectIdAgg, if_pos hp] at h
        cases hrest : convertCourseIds rest with
        | error e2 => rw [hrest] at h; cases h; exact ih hrest
        | ok tail => rw [hrest] at h; cases h
      · rw [convertCourseIds, toObjectIdAgg, if_neg hp] at h
        cases h; rfl

/-- The aggregation pipeline, on matched documents with well-formed
course ids, returns exactly the joined records. -/
lemma aggregateResults_ok (store : Store) (student_id : String)
    (h : ∀ p ∈ matchedResults store student_id, isValidObjectId p.2.course_id = true) :
    aggregateResults store student_id = .ok (joinedRecords store student_id) := by
  rw [aggregateResults, convertCourseIds_ok _ h]
  rw [joinedRecords]

/-- Any failure of the aggregation pipeline is a Mongo parse error, in
particular neither a 404 nor a validation error. -/
lemma aggregateResults_error (store : Store) (student_id : String) (e : Err)
    (h : aggregateResults store student_id = .error e) :
    e = .mongo "Failed to parse objectId" := by
  rw [aggregateResults] at h
  cases hc : convertCourseIds (matchedResults store student_id) with
  | error e2 => rw [hc] at h; cases h; exact convertCourseIds_error _ _ hc
  | ok l => rw [hc] at h; cases h

/-- Main refinement lemma: on a well-formed id resolving to an existing
student, with well-formed course references on the matched results,
`get_transcript` returns the spec transcript. -/
lemma get_transcript_ok_spec (store : Store) (sid oid : String) (st : Student)
    (h1 : to_object_id sid = .ok oid)
    (h2 : find_student store oid = some st)
    (h3 : ∀ p ∈ matchedResults store sid, isValidObjectId p.2.course_id = true) :
    (get_transcript store sid).1 =
      .ok ⟨⟨oid, st.first_name, st.last_name, st.roll_number, st.class_name,
            st.year⟩,
           gpa_spec (joinedRecords store sid),
           items_spec (joinedRecords store sid)⟩ := by
  rw [get_transcript, get_transcript_core, h1]
  dsimp only
  rw [h2]
  dsimp only
  rw [aggregateResults_ok store sid h3]
  dsimp only
  rw [foldl_transcriptStep]
  simp [gpa_spec]

/-- `get_transcript` fails with the 404 "Student not found" when the
(well-formed) id matches no stored student; the lookup happens before
the result aggregation. -/
lemma get_transcript_absent (store : Store) (sid oid : String)
    (h1 : to_object_id sid = .ok oid)
    (h2 : find_student store oid = none) :
    (get_transcript store sid).1 = .error (.http 404 "Student not found") := by
  rw [get_transcript, get_transcript_core, h1]
  dsimp only
  rw [h2]

/-- When the student exists, `get_transcript` either fails with the
Mongo parse error of the aggregation or succeeds — never with the 404
"Student not found". -/
lemma get_transcript_present_shape (store : Store) (sid oid : String)
    (st : Student)
    (h1 : to_object_id sid = .ok oid)
    (h2 : find_student store oid = some st) :
    (get_transcript store sid).1 = .error (.mongo "Failed to parse objectId") ∨
      ∃ t, (get_transcript store sid).1 = .ok t := by
  rw [get_transcript, get_transcript_core, h1]
  dsimp only
  rw [h2]
  dsimp only
  cases hagg : aggregateResults store sid with
  | error e =>
      left
      rw [aggregateResults_error store sid e hagg]
  | ok records =>
      right
      exact ⟨_, rfl⟩

/-- `create_result` rejects a call whose (well-formed) student id
matches no stored student, without writing. -/
lemma create_result_student_absent (store : Store) (req : ResultCreate)
    (soid : String)
    (hs : to_object_id req.student_id = .ok soid)
    (h0 : count_by_id store.students soid = 0) :
    create_result store req = (.error (.http 404 "Student not found"), store) := by
  rw [create_result, hs]
  dsimp only
  rw [if_pos (by simp [h0])]

/-- `create_result` rejects a call whose student exists but whose
(well-formed) course id matches no stored course, without writing. -/
lemma create_result_course_absent (store : Store) (req : ResultCreate)
    (soid coid : String)
    (hs : to_object_id req.student_id = .ok soid)
    (h1 : count_by_id store.students soid ≠ 0)
    (hc : to_object_id req.course_id = .ok coid)
    (h0 : count_by_id store.courses coid = 0) :
    create_result store req = (.error (.http 404 "Course not found"), store) := by
  rw [create_result, hs]
  dsimp only
  rw [if_neg (by simp [h1]), hc]
  dsimp only
  rw [if_pos (by simp [h0])]

/-- When both referenced documents exist, out-of-range marks make the
pydantic payload construction fail, without writing. -/
lemma create_result_bad_marks (store : Store) (req : ResultCreate)
    (soid coid : String)
    (hs : to_object_id req.student_id = .ok soid)
    (h1 : count_by_id store.students soid ≠ 0)
    (hc : to_object_id req.course_id = .ok coid)
    (h2 : count_by_id store.courses coid ≠ 0)
    (hm : req.marks < 0 ∨ 100 < req.marks) :
    create_result store req = (.error (.pydantic "marks"), store) := by
  rw [create_result, hs]
  dsimp only
  rw [if_neg (by simp [h1]), hc]
  dsimp only
  rw [if_neg (by simp [h2]),
    mkResultPayload, if_neg (by rcases hm with hm | hm <;> push_neg <;> intro h <;> linarith)]

/-- With both referenced documents present and in-range marks,
`create_result` computes the grade pair, appends the payload under a
fresh store id, and returns that id with the grade pair. -/
lemma create_result_ok (store : Store) (req : ResultCreate)
    (soid coid : String)
    (hs : to_object_id req.student_id = .ok soid)
    (h1 : count_by_id store.students soid ≠ 0)
    (hc : to_object_id req.course_id = .ok coid)
    (h2 : count_by_id store.courses coid ≠ 0)
    (hm : 0 ≤ req.marks ∧ req.marks ≤ 100) :
    create_result store req =
      (.ok (genOid store.nextOid, (calculate_grade req.marks).1,
            (calculate_grade req.marks).2),
       { store with
          results := store.results ++
            [(genOid store.nextOid,
              ⟨req.student_id, req.course_id, req.marks,
               some (calculate_grade req.marks).1,
               some (calculate_grade req.marks).2⟩)],
          nextOid := store.nextOid + 1 }) := by
  rw [create_result, hs]
  dsimp only
  rw [if_neg (by simp [h1]), hc]
  dsimp only
  rw [if_neg (by simp [h2]), mkResultPayload, if_pos hm]
  rfl

/-- Rounding an integer-valued rational half-to-even returns it. -/
lemma roundHalfEven_intCast (n : ℤ) : roundHalfEven (n : ℚ) = n := by
  rw [roundHalfEven]
  norm_num

/-- The scenario GPA 44/5 (= 8.8) is unchanged by rounding to 2
decimal places. -/
lemma round2_gpa_scenario : round2 (44/5) = 44/5 := by
  rw [round2]
  have h : (44/5 : ℚ) * 100 = ((880 : ℤ) : ℚ) := by norm_num
  rw [h, roundHalfEven_intCast]
  norm_num

/-! ## Claim theorems -/

/-- C1: the Grade Calculator maps marks to the (letter grade, grade
point) pair of the band table with inclusive lower bounds, evaluated
highest-first: marks ≥ 90 gives A+/10.0, ≥ 80 gives A/9.0, ≥ 70 gives
B/8.0, ≥ 60 gives C/7.0, ≥ 50 gives D/6.0, ≥ 40 gives E/5.0, anything
below 40 gives F/0.0; in particular marks 90 ↦ A+/10.0,
89.999 ↦ A/9.0, 39 ↦ F/0.0, 0 ↦ F/0.0, 100 ↦ A+/10.0. -/
theorem calculate_grade_bands (m : ℚ) :
    (90 ≤ m → calculate_grade m = ("A+", 10)) ∧
    (80 ≤ m → m < 90 → calculate_grade m = ("A", 9)) ∧
    (70 ≤ m → m < 80 → calculate_grade m = ("B", 8)) ∧
    (60 ≤ m → m < 70 → calculate_grade m = ("C", 7)) ∧
    (50 ≤ m → m < 60 → calculate_grade m = ("D", 6)) ∧
    (40 ≤ m → m < 50 → calculate_grade m = ("E", 5)) ∧
    (m < 40 → calculate_grade m = ("F", 0)) ∧
    calculate_grade 90 = ("A+", 10) ∧
    calculate_grade (89999/1000) = ("A", 9) ∧
    calculate_grade 39 = ("F", 0) ∧
    calculate_grade 0 = ("F", 0) ∧
    calculate_grade 100 = ("A+", 10) := by
  refine ⟨?_, ?_, ?_, ?_, ?_, ?_, ?_, by norm_num [calculate_grade],
    by norm_num [calculate_grade], by norm_num [calculate_grade],
    by norm_num [calculate_grade], by norm_num [calculate_grade]⟩ <;>
    intros <;> unfold calculate_grade <;> split_ifs <;>
    first
      | (exfalso; linarith)
      | norm_num [Prod.ext_iff]

/-- Witness for C1 at marks 95. -/
theorem calculate_grade_bands_witness :
    (90 : ℚ) ≤ 95 ∧ calculate_grade 95 = ("A+", 10) :=
  ⟨by norm_num, (calculate_grade_bands 95).1 (by norm_num)⟩

/-- C8: `get_transcript` is a read-only, side-effect-free query: it
returns the store unchanged, and a second call against the resulting
state returns the identical transcript. -/
theorem get_transcript_read_only (store : Store) (sid : String) :
    (get_transcript store sid).2 = store ∧
    (get_transcript (get_transcript store sid).2 sid).1 =
      (get_transcript store sid).1 :=
  ⟨rfl, rfl⟩

/-- C10: `list_results` applies its student_id filter only when the
argument is a non-empty string: with the empty string it returns every
result document, exactly as with no filter, and does not write. -/
theorem list_results_empty_filter (store : Store) :
    list_results store (some "") = list_results store none ∧
    (list_results store none).1 = store.results ∧
    (list_results store none).2 = store :=
  ⟨rfl, rfl, rfl⟩

/-- C3: with a well-formed student identifier, `get_transcript` fails
with NotFoundError("student") if and only if the identifier matches no
stored student; the check happens before any result lookup (an absent
student yields the 404 whatever the result collection holds); an
existing student with no matching results gets a transcript with GPA 0
and an empty item list; an unknown student never gets a transcript. -/
theorem get_transcript_student_check (store : Store) (sid oid : String)
    (h : to_object_id sid = .ok oid) :
    ((get_transcript store sid).1 = .error (.http 404 "Student not found") ↔
      find_student store oid = none) ∧
    (find_student store oid = none → ∀ rs : List (String × ResultDoc),
      (get_transcript { store with results := rs } sid).1 =
        .error (.http 404 "Student not found")) ∧
    (∀ st, find_student store oid = some st → matchedResults store sid = [] →
      (get_transcript store sid).1 =
        .ok ⟨⟨oid, st.first_name, st.last_name, st.roll_number, st.class_name,
              st.year⟩, 0, []⟩) ∧
    (find_student store oid = none →
      ∀ t : Transcript, (get_transcript store sid).1 ≠ .ok t) := by
  refine ⟨⟨?_, ?_⟩, ?_, ?_, ?_⟩
  · intro heq
    cases hfs : find_student store oid with
    | none => rfl
    | some st =>
        rcases get_transcript_present_shape store sid oid st h hfs with hsh | ⟨t, hsh⟩
        · rw [heq] at hsh
          cases hsh
        · rw [heq] at hsh
          cases hsh
  · intro hfs
    exact get_transcript_absent store sid oid h hfs
  · intro hfs rs
    exact get_transcript_absent _ sid oid h hfs
  · intro st hfs hmatch
    have h3 : ∀ p ∈ matchedResults store sid, isValidObjectId p.2.course_id = true := by
      intro p hp
      rw [hmatch] at hp
      cases hp
    rw [get_transcript_ok_spec store sid oid st h hfs h3]
    have hj : joinedRecords store sid = [] := by
      rw [joinedRecords, hmatch]
      rfl
    rw [hj]
    simp [gpa_spec, items_spec, total_credits_spec]
  · intro hfs t
    rw [get_transcript_absent store sid oid h hfs]
    simp

/-- Witness for C3: in the store with one student `sidA`, the unknown
(well-formed) id `sidD` fails with the 404. -/
theorem get_transcript_student_check_witness :
    (get_transcript baseStore sidD).1 = .error (.http 404 "Student not found") :=
  ((get_transcript_student_check baseStore sidD sidD (by rfl)).1).mpr (by rfl)

/-- C6: with well-formed identifiers and in-range marks, `create_result`
fails with NotFoundError("student") when the student id matches no
stored student — regardless of the course — and with
NotFoundError("course") when the student exists but the course id
matches no stored course; in both cases the store is unchanged. -/
theorem create_result_existence_order (store : Store) (req : ResultCreate)
    (soid coid : String)
    (hmarks : 0 ≤ req.marks ∧ req.marks ≤ 100)
    (hs : to_object_id req.student_id = .ok soid)
    (hc : to_object_id req.course_id = .ok coid) :
    (count_by_id store.students soid = 0 →
      create_result store req = (.error (.http 404 "Student not found"), store)) ∧
    (count_by_id store.students soid ≠ 0 → count_by_id store.courses coid = 0 →
      create_result store req = (.error (.http 404 "Course not found"), store)) :=
  ⟨fun h0 => create_result_student_absent store req soid hs h0,
   fun h1 h0 => create_result_course_absent store req soid coid hs h1 hc h0⟩

/-- Witness for C6: recording marks 50 for the unknown student `sidD`
fails with the student 404 and leaves the store unchanged. -/
theorem create_result_existence_order_witness :
    create_result baseStore ⟨sidD, cidB, 50⟩ =
      (.error (.http 404 "Student not found"), baseStore) :=
  (create_result_existence_order baseStore ⟨sidD, cidB, 50⟩ sidD cidB
    (by norm_num) (by rfl) (by rfl)).1 (by rfl)

/-- C5 counterexample: `create_result` with marks −1 (outside [0,100])
and an unknown student fails with the student NotFoundError, not with a
ValidationError — so the marks-range check is not performed first. -/
theorem create_result_marks_first_cex :
    (create_result emptyStore ⟨sidA, cidB, -1⟩).1 =
        .error (.http 404 "Student not found") ∧
    (create_result emptyStore ⟨sidA, cidB, -1⟩).1 ≠
        .error (.pydantic "marks") ∧
    (Err.http 404 "Student not found").isValidationError = false := by
  refine ⟨rfl, ?_, rfl⟩
  rw [show (create_result emptyStore ⟨sidA, cidB, -1⟩).1 =
      .error (.http 404 "Student not found") from rfl]
  simp

/-- C5 (amended): the marks-range check is performed last, after the
student and course existence checks: with well-formed identifiers, a
missing student reports NotFoundError("student") and a missing course
NotFoundError("course") whatever the marks; only when both exist does a
marks value outside [0,100] fail with the ValidationError, and in every
failing case no Result is written. -/
theorem create_result_marks_checked_last (store : Store) (req : ResultCreate)
    (soid coid : String)
    (hs : to_object_id req.student_id = .ok soid)
    (hc : to_object_id req.course_id = .ok coid)
    (hm : req.marks < 0 ∨ 100 < req.marks) :
    (count_by_id store.students soid = 0 →
      create_result store req = (.error (.http 404 "Student not found"), store)) ∧
    (count_by_id store.students soid ≠ 0 → count_by_id store.courses coid = 0 →
      create_result store req = (.error (.http 404 "Course not found"), store)) ∧
    (count_by_id store.students soid ≠ 0 → count_by_id store.courses coid ≠ 0 →
      create_result store req = (.error (.pydantic "marks"), store)) :=
  ⟨fun h0 => create_result_student_absent store req soid hs h0,
   fun h1 h0 => create_result_course_absent store req soid coid hs h1 hc h0,
   fun h1 h2 => create_result_bad_marks store req soid coid hs h1 hc h2 hm⟩

/-- Witness for the amended C5: marks 101 with both documents present
fails with the pydantic marks ValidationError and writes nothing. -/
theorem create_result_marks_checked_last_witness :
    create_result baseStore ⟨sidA, cidB, 101⟩ =
      (.error (.pydantic "marks"), baseStore) :=
  (create_result_marks_checked_last baseStore ⟨sidA, cidB, 101⟩ sidA cidB
    (by rfl) (by rfl) (by norm_num)).2.2 (by decide) (by decide)

/-- C9 counterexample: `create_result` called with a malformed course id
and a well-formed but unknown student id fails with
NotFoundError("student"), not with the "Invalid id format"
ValidationError — so not every malformed identifier is rejected with a
ValidationError. -/
theorem malformed_id_validation_cex :
    isValidObjectId "nope" = false ∧
    (create_result emptyStore ⟨sidA, "nope", 50⟩).1 =
        .error (.http 404 "Student not found") ∧
    (Err.http 404 "Student not found").isValidationError = false :=
  ⟨rfl, rfl, rfl⟩

/-- C9 (amended): a malformed student identifier makes both
`get_transcript` and `create_result` fail with the 400 "Invalid id
format" ValidationError before any write; a malformed course identifier
in `create_result` is rejected the same way only once the student check
has passed (with an unknown student the call reports the student 404
instead, as the counterexample shows). -/
theorem malformed_id_validation (store : Store) (sid : String)
    (req : ResultCreate) :
    (isValidObjectId sid = false →
      get_transcript store sid = (.error (.http 400 "Invalid id format"), store)) ∧
    (isValidObjectId req.student_id = false →
      create_result store req = (.error (.http 400 "Invalid id format"), store)) ∧
    (∀ soid, to_object_id req.student_id = .ok soid →
      count_by_id store.students soid ≠ 0 →
      isValidObjectId req.course_id = false →
      create_result store req = (.error (.http 400 "Invalid id format"), store)) := by
  refine ⟨?_, ?_, ?_⟩
  · intro hbad
    rw [get_transcript, get_transcript_core, to_object_id, if_neg (by simp [hbad])]
  · intro hbad
    rw [create_result, to_object_id, if_neg (by simp [hbad])]
  · intro soid hs h1 hbad
    rw [create_result, hs]
    dsimp only
    rw [if_neg (by simp [h1]), to_object_id, if_neg (by simp [hbad])]

/-- Witness for the amended C9: the malformed id "zz" as student_id is
rejected with the 400 ValidationError, writing nothing. -/
theorem malformed_id_validation_witness :
    create_result baseStore ⟨"zz", cidB, 50⟩ =
      (.error (.http 400 "Invalid id format"), baseStore) :=
  (malformed_id_validation baseStore "zz" ⟨"zz", cidB, 50⟩).2.1 rfl

/-- C2: the transcript GPA equals
round((Σ grade_point × credits) / (Σ credits), 2) over the joined
result/course line items when total credits is strictly positive, and 0
when total credits is 0 (including zero results); in particular, after
recording (marks 95, credits 3) and (marks 65, credits 2) through the
Result Recorder, the GPA is 44/5 = 8.8. -/
theorem get_transcript_gpa (store : Store) (sid oid : String) (st : Student)
    (h1 : to_object_id sid = .ok oid)
    (h2 : find_student store oid = some st)
    (h3 : ∀ p ∈ matchedResults store sid, isValidObjectId p.2.course_id = true) :
    (∃ t, (get_transcript store sid).1 = .ok t ∧
      t.gpa = (if 0 < total_credits_spec (joinedRecords store sid) then
          round2 (total_points_spec (joinedRecords store sid) /
            total_credits_spec (joinedRecords store sid))
        else 0)) ∧
    gpaOf (get_transcript scenarioStore sidA) = some (44/5) := by
  constructor
  · exact ⟨_, get_transcript_ok_spec store sid oid st h1 h2 h3, rfl⟩
  · have hJ : joinedRecords scenarioStore sidA =
        [(genOid 3, ⟨sidA, cidB, 95, some (calculate_grade (95:ℚ)).1,
            some (calculate_grade (95:ℚ)).2⟩, mathCourse),
         (genOid 4, ⟨sidA, cidC, 65, some (calculate_grade (65:ℚ)).1,
            some (calculate_grade (65:ℚ)).2⟩, physCourse)] := by rfl
    have hcore : get_transcript_core scenarioStore sidA =
        .ok ⟨⟨sidA, annStudent.first_name, annStudent.last_name,
              annStudent.roll_number, annStudent.class_name, annStudent.year⟩,
             gpa_spec (joinedRecords scenarioStore sidA),
             items_spec (joinedRecords scenarioStore sidA)⟩ :=
      get_transcript_ok_spec scenarioStore sidA sidA annStudent
        (by rfl) (by rfl) (by decide)
    show gpaOf (get_transcript_core scenarioStore sidA, scenarioStore) = some (44/5)
    rw [hcore]
    show some (gpa_spec (joinedRecords scenarioStore sidA)) = some (44/5)
    rw [hJ]
    simp only [gpa_spec, total_points_spec, total_credits_spec,
      List.map_cons, List.map_nil, List.sum_cons, List.sum_nil]
    norm_num [calculate_grade, mathCourse, physCourse]
    exact round2_gpa_scenario

/-- Witness for C2: the recorded round-trip scenario yields GPA 8.8. -/
theorem get_transcript_gpa_witness :
    gpaOf (get_transcript scenarioStore sidA) = some (44/5) :=
  (get_transcript_gpa scenarioStore sidA sidA annStudent (by rfl) (by rfl)
    (by decide)).2

/-- C4: the join of results to courses is an inner join: a matched
result whose referenced course is absent from the course collection is
silently dropped — removing it from the store leaves the transcript
unchanged (so it contributes no line item and nothing to the totals) —
and the transcript still succeeds with no error for it. -/
theorem get_transcript_inner_join (store : Store) (sid oid : String)
    (st : Student) (pre post : List (String × ResultDoc)) (rid : String)
    (r : ResultDoc)
    (h1 : to_object_id sid = .ok oid)
    (h2 : find_student store oid = some st)
    (h3 : ∀ p ∈ matchedResults store sid, isValidObjectId p.2.course_id = true)
    (hres : store.results = pre ++ (rid, r) :: post)
    (hsid : r.student_id = sid)
    (hmiss : store.courses.find? (fun c => c.1 == oidCanon r.course_id) = none) :
    (∃ t, (get_transcript store sid).1 = .ok t) ∧
    (get_transcript store sid).1 =
      (get_transcript { store with results := pre ++ post } sid).1 := by
  have hmatched : matchedResults store sid =
      pre.filter (fun p => p.2.student_id == sid) ++
        (rid, r) :: post.filter (fun p => p.2.student_id == sid) := by
    rw [matchedResults, hres, List.filter_append, List.filter_cons]
    simp [hsid]
  have hmatched' : matchedResults { store with results := pre ++ post } sid =
      pre.filter (fun p => p.2.student_id == sid) ++
        post.filter (fun p => p.2.student_id == sid) := by
    show (pre ++ post).filter (fun p => p.2.student_id == sid) = _
    rw [List.filter_append]
  have h3' : ∀ p ∈ matchedResults { store with results := pre ++ post } sid,
      isValidObjectId p.2.course_id = true := by
    intro p hp
    apply h3
    rw [hmatched'] at hp
    rw [hmatched]
    rcases List.mem_append.mp hp with h | h
    · exact List.mem_append_left _ h
    · exact List.mem_append_right _ (List.mem_cons_of_mem _ h)
  have hjoin : joinedRecords store sid =
      joinedRecords { store with results := pre ++ post } sid := by
    rw [joinedRecords, joinedRecords, hmatched, hmatched']
    simp only [List.map_append, List.map_cons, List.filterMap_append,
      List.filterMap_cons]
    rw [show (store.courses.find? (fun c =>
        c.1 == ((rid, r).1, (rid, r).2, oidCanon (rid, r).2.course_id).2.2)).map
        (fun c => (((rid, r).1, (rid, r).2, oidCanon (rid, r).2.course_id).1,
          ((rid, r).1, (rid, r).2, oidCanon (rid, r).2.course_id).2.1, c.2)) =
        none from by rw [hmiss]; rfl]
  constructor
  · exact ⟨_, get_transcript_ok_spec store sid oid st h1 h2 h3⟩
  · rw [get_transcript_ok_spec store sid oid st h1 h2 h3,
      get_transcript_ok_spec { store with results := pre ++ post } sid oid st h1 h2 h3',
      hjoin]

/-- Witness for C4: in `missStore`, whose first result references the
absent course `cidC`, the transcript succeeds and equals the transcript
of the store without that result. -/
theorem get_transcript_inner_join_witness :
    (∃ t, (get_transcript missStore sidA).1 = .ok t) ∧
    (get_transcript missStore sidA).1 =
      (get_transcript { missStore with
        results := [] ++ [(genOid 8, ⟨sidA, cidB, 95, some "A+", some 10⟩)] }
        sidA).1 :=
  get_transcript_inner_join missStore sidA sidA annStudent []
    [(genOid 8, ⟨sidA, cidB, 95, some "A+", some 10⟩)] (genOid 7)
    ⟨sidA, cidC, 70, some "B", some 8⟩ (by rfl) (by rfl) (by decide) (by rfl)
    (by rfl) (by rfl)

/-- C7: the Transcript Aggregator uses the grade/grade_point stored on
each result document and never recomputes them from marks: a joined
result whose stored grade_point differs from what the Grade Calculator
would give for its marks yields a line item carrying the stored value,
and the GPA is the spec aggregate over stored grade points only. -/
theorem transcript_uses_stored_grade_point (store : Store) (sid oid : String)
    (st : Student) (rid : String) (r : ResultDoc) (c : Course) (gp : ℚ)
    (h1 : to_object_id sid = .ok oid)
    (h2 : find_student store oid = some st)
    (h3 : ∀ p ∈ matchedResults store sid, isValidObjectId p.2.course_id = true)
    (hmem : (rid, r, c) ∈ joinedRecords store sid)
    (hgp : r.grade_point = some gp)
    (hne : gp ≠ (calculate_grade r.marks).2) :
    ∃ t, (get_transcript store sid).1 = .ok t ∧
      (⟨c.code, c.title, c.credits, r.marks, r.grade, gp⟩ : TranscriptItem) ∈
        t.results ∧
      t.gpa = gpa_spec (joinedRecords store sid) := by
  refine ⟨_, get_transcript_ok_spec store sid oid st h1 h2 h3, ?_, rfl⟩
  show _ ∈ items_spec (joinedRecords store sid)
  have hm := List.mem_map_of_mem (fun q : String × ResultDoc × Course =>
    (⟨q.2.2.code, q.2.2.title, q.2.2.credits, q.2.1.marks, q.2.1.grade,
      (q.2.1.grade_point).getD 0⟩ : TranscriptItem)) hmem
  rw [items_spec]
  simpa [hgp] using hm

/-- Witness for C7: the result with marks 95 but stored grade_point 3
produces a line item with grade_point 3, not the calculator's 10. -/
theorem transcript_uses_stored_grade_point_witness :
    ∃ t, (get_transcript storedGpStore sidA).1 = .ok t ∧
      (⟨mathCourse.code, mathCourse.title, mathCourse.credits, 95, some "A+",
        3⟩ : TranscriptItem) ∈ t.results ∧
      t.gpa = gpa_spec (joinedRecords storedGpStore sidA) :=
  transcript_uses_stored_grade_point storedGpStore sidA sidA annStudent
    (genOid 5) ⟨sidA, cidB, 95, some "A+", some 3⟩ mathCourse 3
    (by rfl) (by rfl) (by decide) (by decide) (by rfl)
    (by norm_num [calculate_grade])

end StudentResults
